import Mathlib

/-!
Verification of the bikewatching traffic-aggregation engine (src/map.js).

The JavaScript source is shallowly embedded below:
* timestamps (JS `Date`) are represented by their wall-clock hour and
  minute fields, the only parts `minutesSinceMidnight` reads;
* JS numbers appearing as the time filter are represented by `JSNum`
  (either `NaN` or an integer), so that the strict comparison
  `timeFilter === -1` and `Math.abs(x - timeFilter) <= 60` (false for
  `NaN`) can be modelled faithfully;
* `d3.rollup(trips, v => v.length, key)` followed by `map.get(id) ?? 0`
  equals the number of trips whose key is `id`, which is how the counts
  are embedded;
* `d3.scaleQuantize().domain([0,1]).range([0,0.5,1])` is embedded by the
  threshold computation d3 performs for a three-value range;
* `d3.scaleSqrt` is embedded over the reals with d3's signed square root
  transform and its degenerate-domain convention (constant midpoint when
  the transformed domain has zero width);
* the mutable pipeline state (the stations array and the radius scale
  object, whose domain is set once at load and whose range is reassigned
  on each filter change) is threaded explicitly through `PipelineState`.
-/

/-- Wall-clock time of a JS `Date`, to the minute. -/
structure DateTime where
  hours : Nat
  minutes : Nat
deriving DecidableEq, Repr

/-- A record of the trips CSV after parsing (src/map.js lines 153-160). -/
structure Trip where
  start_station_id : String
  end_station_id : String
  started_at : DateTime
  ended_at : DateTime
deriving DecidableEq, Repr

/-- A station record with the derived traffic fields written by
`computeStationTraffic` (src/map.js lines 86-93). -/
structure Station where
  short_name : String
  lon : ℚ
  lat : ℚ
  arrivals : Nat
  departures : Nat
  totalTraffic : Nat
deriving DecidableEq, Repr

/-- A JS number as it can reach `filterTripsbyTime`: `NaN` or an integer. -/
inductive JSNum where
  | nan : JSNum
  | num : Int → JSNum
deriving DecidableEq, Repr

/-- The strict comparison `timeFilter === -1` (false for `NaN`). -/
def JSNum.isNegOne : JSNum → Bool
  | .nan => false
  | .num v => v == -1

/-- The test `Math.abs(x - timeFilter) <= 60`; any comparison with `NaN`
is false in JS. -/
def absLe60 (x : Nat) (f : JSNum) : Bool :=
  match f with
  | .nan => false
  | .num v => ((x : Int) - v).natAbs ≤ 60

/-- Embeds `minutesSinceMidnight` (src/map.js lines 51-53). -/
def minutesSinceMidnight (date : DateTime) : Nat :=
  date.hours * 60 + date.minutes

/-- Embeds `filterTripsbyTime` (src/map.js lines 56-68). -/
def filterTripsbyTime (trips : List Trip) (timeFilter : JSNum) : List Trip :=
  if timeFilter.isNegOne then trips
  else trips.filter fun trip =>
    absLe60 (minutesSinceMidnight trip.started_at) timeFilter ||
    absLe60 (minutesSinceMidnight trip.ended_at) timeFilter

/-- The per-station body of `stations.map` in `computeStationTraffic`
(src/map.js lines 87-93): `arrivals.get(id) ?? 0` on the `d3.rollup` of
trips by `end_station_id` is the number of trips ending at `id`, and
likewise for departures by `start_station_id`. -/
def updateStationTraffic (trips : List Trip) (station : Station) : Station :=
  let id := station.short_name
  let arr := (trips.filter fun t => t.end_station_id = id).length
  let dep := (trips.filter fun t => t.start_station_id = id).length
  { station with arrivals := arr, departures := dep, totalTraffic := arr + dep }

/-- Embeds `computeStationTraffic` (src/map.js lines 71-94). -/
def computeStationTraffic (stations : List Station) (trips : List Trip) : List Station :=
  stations.map (updateStationTraffic trips)

/-- A three-value `d3.scaleQuantize()` with domain `[x0, x1]` and range
`(r0, r1, r2)`: d3 places thresholds at `(x1 + 2*x0)/3` and
`(2*x1 + x0)/3` and picks the bucket by right bisection. -/
def scaleQuantize3 (x0 x1 r0 r1 r2 x : ℚ) : ℚ :=
  let t1 := (x1 + 2 * x0) / 3
  let t2 := (2 * x1 + x0) / 3
  if x < t1 then r0 else if x < t2 then r1 else r2

/-- Embeds `stationFlow` (src/map.js lines 29-31). -/
def stationFlow : ℚ → ℚ := scaleQuantize3 0 1 0 (1/2) 1

/-- The argument passed to `stationFlow` in `updateScatterPlot`
(src/map.js lines 244-249): `0.5` for a station with no traffic, else
`departures / totalTraffic`. -/
def departureRatioValue (s : Station) : ℚ :=
  if s.totalTraffic = 0 then 1/2 else (s.departures : ℚ) / (s.totalTraffic : ℚ)

/-- The value written to the `--departure-ratio` style of a station's
circle (src/map.js lines 244-249). -/
def departureRatioStyle (s : Station) : ℚ :=
  stationFlow (departureRatioValue s)

/-- Embeds `d3.max(stations, d => d.totalTraffic)`: traffic counts are
nonnegative, so for a nonempty array the fold below is the maximum. -/
def maxTotalTraffic (stations : List Station) : Nat :=
  (stations.map Station.totalTraffic).foldr max 0

/-- The mutable state the reactive pipeline threads between events: the
stations array (mutated in place by `computeStationTraffic`) and the
`radiusScale` object, recorded by its domain upper end and range ends
(the domain lower end is the constant 0 of src/map.js line 168). -/
structure PipelineState where
  stations : List Station
  scaleDomainMax : Nat
  scaleRangeMin : ℚ
  scaleRangeMax : ℚ
deriving Repr

/-- Embeds the initial load (src/map.js lines 162-169): the full
aggregation, then `radiusScale` with domain `[0, d3.max(...)]` and
range `[0, 25]`. -/
def initialLoad (stations : List Station) (trips : List Trip) : PipelineState :=
  let s := computeStationTraffic stations trips
  { stations := s
    scaleDomainMax := maxTotalTraffic s
    scaleRangeMin := 0
    scaleRangeMax := 25 }

/-- Embeds `updateScatterPlot` (src/map.js lines 218-250) on the pipeline
state: filter the full trip list, recompute the station traffic, and
reassign only the RANGE of `radiusScale` (`[0,25]` when `timeFilter` is
`-1`, `[3,50]` otherwise); the domain is not touched. -/
def updateScatterPlot (trips : List Trip) (st : PipelineState) (timeFilter : JSNum) :
    PipelineState :=
  let filteredTrips := filterTripsbyTime trips timeFilter
  let filteredStations := computeStationTraffic st.stations filteredTrips
  { st with
    stations := filteredStations
    scaleRangeMin := if timeFilter.isNegOne then 0 else 3
    scaleRangeMax := if timeFilter.isNegOne then 25 else 50 }

/-- The square-root transform used by `d3.scaleSqrt` (signed for negative
inputs). -/
noncomputable def d3sqrt (x : ℝ) : ℝ :=
  if x < 0 then -Real.sqrt (-x) else Real.sqrt x

/-- A `d3.scaleSqrt` with domain `[0, dmax]` and range `[rlo, rhi]`:
linear interpolation on the square-root-transformed input; when the
transformed domain has zero width d3 interpolates at the constant 1/2. -/
noncomputable def scaleSqrt (dmax rlo rhi x : ℝ) : ℝ :=
  if d3sqrt dmax = 0 then rlo + (rhi - rlo) * (1 / 2)
  else rlo + (rhi - rlo) * (d3sqrt x / d3sqrt dmax)

/-- The `radiusScale` closure of src/map.js applied through the pipeline
state that records its current domain and range. -/
noncomputable def applyRadiusScale (st : PipelineState) (x : ℝ) : ℝ :=
  scaleSqrt (st.scaleDomainMax : ℝ) (st.scaleRangeMin : ℝ) (st.scaleRangeMax : ℝ) x

/-- A rendered circle: its bound station datum and the attributes the
handlers assign (src/map.js lines 174-196). -/
structure CircleElem where
  station : Station
  cx : ℚ
  cy : ℚ
  r : ℝ

/-- The application state seen by the `map.on` handlers: the pipeline
state plus the bound circles. -/
structure AppState where
  pipeline : PipelineState
  circles : List CircleElem

/-- Embeds `updatePositions` (src/map.js lines 191-196), the handler for
the move/zoom/resize/moveend events: reassign `cx`, `cy` from the
projection of the bound station and `r` from the (unchanged) radius
scale; nothing else is touched. The Mapbox projection `getCoords` is the
external parameter `proj`. -/
noncomputable def updatePositions (proj : ℚ → ℚ → ℚ × ℚ) (st : AppState) : AppState :=
  { st with
    circles := st.circles.map fun c =>
      { c with
        cx := (proj c.station.lon c.station.lat).1
        cy := (proj c.station.lon c.station.lat).2
        r := applyRadiusScale st.pipeline (c.station.totalTraffic : ℝ) } }

/-- Station fixtures for concrete evaluations (spec section 8 scenario). -/
def stationA : Station :=
  { short_name := "A", lon := 0, lat := 0, arrivals := 0, departures := 0, totalTraffic := 0 }

def stationB : Station :=
  { short_name := "B", lon := 1, lat := 1, arrivals := 0, departures := 0, totalTraffic := 0 }

/-- Trip fixture: A to B, 08:00 to 08:10 (spec section 8 scenario). -/
def tripAB : Trip :=
  { start_station_id := "A", end_station_id := "B"
    started_at := ⟨8, 0⟩, ended_at := ⟨8, 10⟩ }

/-- Trip fixture: B to A, 08:05 to 08:20 (spec section 8 scenario). -/
def tripBA : Trip :=
  { start_station_id := "B", end_station_id := "A"
    started_at := ⟨8, 5⟩, ended_at := ⟨8, 20⟩ }

/-- Trip fixture: both endpoints at station A, so the station reaches
`totalTraffic = 2` on the full aggregation. -/
def tripAA : Trip :=
  { start_station_id := "A", end_station_id := "A"
    started_at := ⟨8, 0⟩, ended_at := ⟨8, 10⟩ }

/-- Trip fixture at noon, used to probe out-of-range filter values. -/
def tripNoon : Trip :=
  { start_station_id := "A", end_station_id := "A"
    started_at := ⟨12, 0⟩, ended_at := ⟨12, 0⟩ }

/-- Trip fixture at 23:50, used for the midnight-wraparound edge case. -/
def tripLate : Trip :=
  { start_station_id := "A", end_station_id := "A"
    started_at := ⟨23, 50⟩, ended_at := ⟨23, 50⟩ }

/-- Pipeline-state fixture with a nonzero scale domain. -/
def pipelineW : PipelineState :=
  { stations := [], scaleDomainMax := 2, scaleRangeMin := 0, scaleRangeMax := 25 }

/-- Trip fixture with both endpoints unknown to every station fixture. -/
def tripXY : Trip :=
  { start_station_id := "X", end_station_id := "Y"
    started_at := ⟨9, 0⟩, ended_at := ⟨9, 30⟩ }

theorem filterTripsbyTime_num_eq (T : List Trip) (v : Int) (hv : v ≠ -1) :
    filterTripsbyTime T (JSNum.num v) = T.filter fun trip =>
      absLe60 (minutesSinceMidnight trip.started_at) (JSNum.num v) ||
      absLe60 (minutesSinceMidnight trip.ended_at) (JSNum.num v) := by
  have : (JSNum.num v).isNegOne = false := by
    simp [JSNum.isNegOne, hv]
  simp [filterTripsbyTime, this]

/-- C2: trip selection returns all trips unchanged at filter `-1`; at an
integer filter `m` in `[0, 1439]` a trip is selected iff its start or its
end time of day is within 60 minutes of `m`; and the window does not wrap
across midnight: for `m = 10` a trip at 23:50 (minute 1430) on both
endpoints is not selected. -/
theorem filterTripsbyTime_spec (T : List Trip) :
    filterTripsbyTime T (JSNum.num (-1)) = T ∧
    (∀ m : Int, 0 ≤ m → m ≤ 1439 → ∀ t : Trip,
      (t ∈ filterTripsbyTime T (JSNum.num m) ↔
        t ∈ T ∧ (((minutesSinceMidnight t.started_at : Int) - m).natAbs ≤ 60 ∨
                 ((minutesSinceMidnight t.ended_at : Int) - m).natAbs ≤ 60))) ∧
    (∀ t ∈ T, minutesSinceMidnight t.started_at = 1430 →
      minutesSinceMidnight t.ended_at = 1430 →
      t ∉ filterTripsbyTime T (JSNum.num 10)) := by
  refine ⟨?_, ?_, ?_⟩
  · simp [filterTripsbyTime, JSNum.isNegOne]
  · intro m hm0 hm1 t
    rw [filterTripsbyTime_num_eq T m (by omega)]
    simp [List.mem_filter, absLe60]
  · intro t ht h1 h2 hmem
    rw [filterTripsbyTime_num_eq T 10 (by omega)] at hmem
    simp [List.mem_filter, absLe60, h1, h2] at hmem

theorem filterTripsbyTime_spec_witness :
    tripAB ∈ filterTripsbyTime [tripAB, tripBA] (JSNum.num 480) :=
  ((filterTripsbyTime_spec [tripAB, tripBA]).2.1 480 (by decide) (by decide) tripAB).mpr
    ⟨by decide, Or.inl (by decide)⟩

/-- C4 counterexample: the integer 1500 is not a valid filter value
(outside `[-1, 1439]`), yet trip selection does not behave as
`Unfiltered`: it drops a noon trip instead of returning all trips. -/
theorem filterTripsbyTime_outOfRange_not_identity :
    filterTripsbyTime [tripNoon] (JSNum.num 1500) ≠ [tripNoon] := by
  decide

/-- C4 amended: a missing or malformed filter value is NOT treated as
`Unfiltered`. No error is propagated (selection is total), but a `NaN`
filter selects no trips, any integer other than `-1` applies the
60-minute window test, and only the exact value `-1` returns all trips
unchanged. -/
theorem filterTripsbyTime_malformed (T : List Trip) :
    filterTripsbyTime T JSNum.nan = [] ∧
    (∀ v : Int, v ≠ -1 →
      filterTripsbyTime T (JSNum.num v) = T.filter fun trip =>
        absLe60 (minutesSinceMidnight trip.started_at) (JSNum.num v) ||
        absLe60 (minutesSinceMidnight trip.ended_at) (JSNum.num v)) ∧
    filterTripsbyTime T (JSNum.num (-1)) = T := by
  refine ⟨?_, filterTripsbyTime_num_eq T, ?_⟩
  · simp [filterTripsbyTime, JSNum.isNegOne, absLe60]
  · simp [filterTripsbyTime, JSNum.isNegOne]

theorem filterTripsbyTime_malformed_witness :
    filterTripsbyTime [tripNoon] JSNum.nan = [] ∧
    filterTripsbyTime [tripNoon] (JSNum.num 1500) = List.filter (fun trip =>
      absLe60 (minutesSinceMidnight trip.started_at) (JSNum.num 1500) ||
      absLe60 (minutesSinceMidnight trip.ended_at) (JSNum.num 1500)) [tripNoon] :=
  ⟨(filterTripsbyTime_malformed [tripNoon]).1,
   (filterTripsbyTime_malformed [tripNoon]).2.1 1500 (by decide)⟩

/-- C10: a `NaN` filter (a non-numeric slider string coerced with
`Number`) takes the filtering branch, selects no trips, and a subsequent
aggregation over the empty selection sets every station's arrivals,
departures and totalTraffic to 0. -/
theorem filterTripsbyTime_nan_empty_traffic (S : List Station) (T : List Trip) :
    filterTripsbyTime T JSNum.nan = [] ∧
    ∀ s ∈ computeStationTraffic S (filterTripsbyTime T JSNum.nan),
      s.arrivals = 0 ∧ s.departures = 0 ∧ s.totalTraffic = 0 := by
  have h : filterTripsbyTime T JSNum.nan = [] := by
    simp [filterTripsbyTime, JSNum.isNegOne, absLe60]
  refine ⟨h, ?_⟩
  rw [h]
  intro s hs
  obtain ⟨s₀, _, rfl⟩ := List.mem_map.mp hs
  simp [updateStationTraffic]

theorem filterTripsbyTime_nan_empty_traffic_witness :
    (updateStationTraffic (filterTripsbyTime [tripAB] JSNum.nan) stationA).arrivals = 0 ∧
    (updateStationTraffic (filterTripsbyTime [tripAB] JSNum.nan) stationA).departures = 0 ∧
    (updateStationTraffic (filterTripsbyTime [tripAB] JSNum.nan) stationA).totalTraffic = 0 :=
  (filterTripsbyTime_nan_empty_traffic [stationA] [tripAB]).2 _ (by decide)

theorem sum_map_ite_count (x : String) (ids : List String) :
    (ids.map fun id => if x = id then 1 else 0).sum = ids.count x := by
  induction ids with
  | nil => simp
  | cons a l ih =>
    simp only [List.map_cons, List.sum_cons, List.count_cons, ih, beq_iff_eq]
    by_cases h : x = a
    · simp [h, Nat.add_comm]
    · simp [h, Ne.symm h]

theorem sum_map_add_nat (l : List String) (f g : String → Nat) :
    (l.map fun x => f x + g x).sum = (l.map f).sum + (l.map g).sum := by
  induction l with
  | nil => simp
  | cons a l ih => simp [ih]; omega

theorem sum_filter_length_le (ids : List String) (key : Trip → String) (T : List Trip)
    (h : ids.Nodup) :
    (ids.map fun id => (T.filter fun t => key t = id).length).sum ≤ T.length := by
  induction T with
  | nil => simp
  | cons t T ih =>
    have hfun : (fun id => (((t :: T).filter fun u => key u = id)).length)
        = fun id => (if key t = id then 1 else 0) + ((T.filter fun u => key u = id)).length := by
      funext id
      by_cases hk : key t = id
      · simp [List.filter_cons, hk]
        omega
      · simp [List.filter_cons, hk]
    have hcount : (ids.map fun id => if key t = id then 1 else 0).sum ≤ 1 := by
      rw [sum_map_ite_count]
      exact List.nodup_iff_count_le_one.mp h (key t)
    rw [hfun, sum_map_add_nat]
    simp only [List.length_cons]
    omega

/-- C1: aggregation sets, for every station, departures to the number of
trips starting at the station's id, arrivals to the number of trips
ending at it, and totalTraffic to their sum; over a station array with
unique ids (the data-model invariant) the arrivals sum to at most the
number of trips, and likewise the departures. -/
theorem computeStationTraffic_spec (S : List Station) (T : List Trip)
    (h : (S.map Station.short_name).Nodup) :
    (∀ s ∈ computeStationTraffic S T,
        s.departures = (T.filter fun t => t.start_station_id = s.short_name).length ∧
        s.arrivals = (T.filter fun t => t.end_station_id = s.short_name).length ∧
        s.totalTraffic = s.arrivals + s.departures) ∧
    ((computeStationTraffic S T).map Station.arrivals).sum ≤ T.length ∧
    ((computeStationTraffic S T).map Station.departures).sum ≤ T.length := by
  refine ⟨?_, ?_, ?_⟩
  · intro s hs
    obtain ⟨s₀, _, rfl⟩ := List.mem_map.mp hs
    exact ⟨rfl, rfl, rfl⟩
  · have hmap : (computeStationTraffic S T).map Station.arrivals
        = (S.map Station.short_name).map fun id =>
            (T.filter fun t => t.end_station_id = id).length := by
      simp only [computeStationTraffic, List.map_map]
      rfl
    rw [hmap]
    exact sum_filter_length_le _ (fun t => t.end_station_id) T h
  · have hmap : (computeStationTraffic S T).map Station.departures
        = (S.map Station.short_name).map fun id =>
            (T.filter fun t => t.start_station_id = id).length := by
      simp only [computeStationTraffic, List.map_map]
      rfl
    rw [hmap]
    exact sum_filter_length_le _ (fun t => t.start_station_id) T h

theorem computeStationTraffic_spec_witness :
    ((computeStationTraffic [stationA, stationB] [tripAB, tripBA]).map Station.arrivals).sum ≤ 2 ∧
    ((computeStationTraffic [stationA, stationB] [tripAB, tripBA]).map Station.departures).sum ≤ 2 :=
  ⟨(computeStationTraffic_spec [stationA, stationB] [tripAB, tripBA] (by decide)).2.1,
   (computeStationTraffic_spec [stationA, stationB] [tripAB, tripBA] (by decide)).2.2⟩

/-- C5: aggregation is idempotent — running `computeStationTraffic` twice
in a row yields exactly the stations of running it once, because the
derived fields are overwritten wholesale, never accumulated. -/
theorem computeStationTraffic_idempotent (S : List Station) (T : List Trip) :
    computeStationTraffic (computeStationTraffic S T) T = computeStationTraffic S T := by
  simp only [computeStationTraffic, List.map_map]
  exact List.map_congr_left fun s _ => rfl

/-- C6: a trip endpoint that matches no station contributes nothing: if no
station carries the trip's start id the departures are unchanged by the
trip, if none carries its end id the arrivals are unchanged, and if both
ids are unknown the whole aggregation output is unchanged; aggregation
never aborts (it is a total function), and a station no trip references
gets arrivals, departures and totalTraffic exactly 0 — the counts are
natural numbers, so no null/undefined can enter the arithmetic. -/
theorem computeStationTraffic_unmatched (S : List Station) (T : List Trip) (t : Trip) :
    ((∀ s ∈ S, s.short_name ≠ t.start_station_id) →
      (computeStationTraffic S (t :: T)).map Station.departures
        = (computeStationTraffic S T).map Station.departures) ∧
    ((∀ s ∈ S, s.short_name ≠ t.end_station_id) →
      (computeStationTraffic S (t :: T)).map Station.arrivals
        = (computeStationTraffic S T).map Station.arrivals) ∧
    ((∀ s ∈ S, s.short_name ≠ t.start_station_id ∧ s.short_name ≠ t.end_station_id) →
      computeStationTraffic S (t :: T) = computeStationTraffic S T) ∧
    (∀ s ∈ computeStationTraffic S T,
      (∀ u ∈ T, u.start_station_id ≠ s.short_name ∧ u.end_station_id ≠ s.short_name) →
      s.arrivals = 0 ∧ s.departures = 0 ∧ s.totalTraffic = 0) := by
  refine ⟨?_, ?_, ?_, ?_⟩
  · intro h
    simp only [computeStationTraffic, List.map_map]
    refine List.map_congr_left fun s hs => ?_
    have hne : ¬ (t.start_station_id = s.short_name) := fun e => h s hs e.symm
    simp [updateStationTraffic, List.filter_cons, hne]
  · intro h
    simp only [computeStationTraffic, List.map_map]
    refine List.map_congr_left fun s hs => ?_
    have hne : ¬ (t.end_station_id = s.short_name) := fun e => h s hs e.symm
    simp [updateStationTraffic, List.filter_cons, hne]
  · intro h
    simp only [computeStationTraffic]
    refine List.map_congr_left fun s hs => ?_
    have hne1 : ¬ (t.start_station_id = s.short_name) := fun e => (h s hs).1 e.symm
    have hne2 : ¬ (t.end_station_id = s.short_name) := fun e => (h s hs).2 e.symm
    simp [updateStationTraffic, List.filter_cons, hne1, hne2]
  · intro s hs h
    obtain ⟨s₀, hs₀, rfl⟩ := List.mem_map.mp hs
    have harr : (T.filter fun u => u.end_station_id = s₀.short_name) = [] :=
      List.filter_eq_nil_iff.mpr fun u hu => by
        simpa using (h u hu).2
    have hdep : (T.filter fun u => u.start_station_id = s₀.short_name) = [] :=
      List.filter_eq_nil_iff.mpr fun u hu => by
        simpa using (h u hu).1
    simp [updateStationTraffic, harr, hdep]

theorem computeStationTraffic_unmatched_witness :
    computeStationTraffic [stationA] (tripXY :: [tripAB])
      = computeStationTraffic [stationA] [tripAB] :=
  (computeStationTraffic_unmatched [stationA] [tripAB] tripXY).2.2.1 (by decide)

/-- C7: the flow-ratio style value of every station is the quantization of
`departures / totalTraffic` — `0.5` when `totalTraffic = 0` — and lands in
exactly one of the three buckets 0, 0.5, 1. -/
theorem departureRatioStyle_spec (s : Station) :
    (departureRatioStyle s = 0 ∨ departureRatioStyle s = 1/2 ∨ departureRatioStyle s = 1) ∧
    (s.totalTraffic = 0 → departureRatioStyle s = 1/2) := by
  constructor
  · simp only [departureRatioStyle, stationFlow, scaleQuantize3]
    split_ifs <;> simp
  · intro h
    simp only [departureRatioStyle, departureRatioValue, h, if_pos]
    norm_num [stationFlow, scaleQuantize3]

theorem departureRatioStyle_spec_witness :
    departureRatioStyle stationA = 1/2 :=
  (departureRatioStyle_spec stationA).2 (by decide)

/-- C9: over the domain `[0,1]` the quantized flow-ratio encoding has
uniform thirds as buckets — 0 below 1/3, 0.5 from 1/3 up to (excluding)
2/3, and 1 from 2/3 on. -/
theorem stationFlow_thresholds (r : ℚ) (_h0 : 0 ≤ r) (_h1 : r ≤ 1) :
    (r < 1/3 → stationFlow r = 0) ∧
    (1/3 ≤ r → r < 2/3 → stationFlow r = 1/2) ∧
    (2/3 ≤ r → stationFlow r = 1) := by
  have ht1 : ((1 : ℚ) + 2 * 0) / 3 = 1/3 := by norm_num
  have ht2 : (2 * (1 : ℚ) + 0) / 3 = 2/3 := by norm_num
  refine ⟨fun h => ?_, fun ha hb => ?_, fun h => ?_⟩ <;>
    simp only [stationFlow, scaleQuantize3, ht1, ht2] <;>
    split_ifs <;>
    first
    | rfl
    | linarith

theorem stationFlow_thresholds_witness :
    stationFlow (1/2) = 1/2 :=
  (stationFlow_thresholds (1/2) (by norm_num) (by norm_num)).2.1 (by norm_num) (by norm_num)

/-- C3 counterexample: stations `[A]`, trips `[A to A at 08:00-08:10]`,
then the filter changes to minute 600 (10:00). The update leaves the
radius scale's domain at the initial full-traffic maximum 2, while the
maximum totalTraffic of the current aggregation is 0 — the domain is NOT
`[0, max totalTraffic of the current aggregation]` as claimed. -/
theorem radiusScale_domain_stale :
    (updateScatterPlot [tripAA] (initialLoad [stationA] [tripAA]) (JSNum.num 600)).scaleDomainMax
      ≠ maxTotalTraffic
        (updateScatterPlot [tripAA] (initialLoad [stationA] [tripAA]) (JSNum.num 600)).stations := by
  decide

theorem d3sqrt_of_nonneg (x : ℝ) (h : 0 ≤ x) : d3sqrt x = Real.sqrt x := by
  simp [d3sqrt, not_lt.mpr h]

theorem scaleSqrt_at_zero (dmax rlo rhi : ℝ) (h : 0 < dmax) :
    scaleSqrt dmax rlo rhi 0 = rlo := by
  have hs : d3sqrt dmax = Real.sqrt dmax := d3sqrt_of_nonneg _ h.le
  have hpos : 0 < Real.sqrt dmax := Real.sqrt_pos.mpr h
  rw [scaleSqrt, if_neg (by rw [hs]; exact hpos.ne')]
  rw [d3sqrt_of_nonneg 0 le_rfl]
  simp

theorem scaleSqrt_at_top (dmax rlo rhi : ℝ) (h : 0 < dmax) :
    scaleSqrt dmax rlo rhi dmax = rhi := by
  have hs : d3sqrt dmax = Real.sqrt dmax := d3sqrt_of_nonneg _ h.le
  have hpos : 0 < Real.sqrt dmax := Real.sqrt_pos.mpr h
  rw [scaleSqrt, if_neg (by rw [hs]; exact hpos.ne')]
  rw [hs, div_self hpos.ne']
  ring

theorem scaleSqrt_mono (dmax rlo rhi x y : ℝ) (hd : 0 ≤ dmax) (hr : rlo ≤ rhi)
    (hx : 0 ≤ x) (hxy : x ≤ y) :
    scaleSqrt dmax rlo rhi x ≤ scaleSqrt dmax rlo rhi y := by
  unfold scaleSqrt
  split_ifs with h
  · exact le_rfl
  · have hs : d3sqrt dmax = Real.sqrt dmax := d3sqrt_of_nonneg _ hd
    have hpos : 0 < Real.sqrt dmax :=
      lt_of_le_of_ne (Real.sqrt_nonneg _) (Ne.symm (by rw [← hs]; exact h))
    have hxx : d3sqrt x = Real.sqrt x := d3sqrt_of_nonneg _ hx
    have hyy : d3sqrt y = Real.sqrt y := d3sqrt_of_nonneg _ (hx.trans hxy)
    rw [hs, hxx, hyy]
    have hdiv : Real.sqrt x / Real.sqrt dmax ≤ Real.sqrt y / Real.sqrt dmax :=
      (div_le_div_iff_of_pos_right hpos).mpr (Real.sqrt_le_sqrt hxy)
    exact add_le_add_left (mul_le_mul_of_nonneg_left hdiv (sub_nonneg.mpr hr)) rlo

/-- C3 amended: after every filter change only the radius scale's RANGE is
reassigned — `[0, 25]` when unfiltered, `[3, 50]` when a minute filter is
active — while the domain stays at the value fixed at initial load (the
maximum totalTraffic of the initial full aggregation), not at the current
aggregation's maximum. The scale is a square-root scale: whenever its
domain maximum is nonzero the scale maps 0 to the range minimum and the
domain maximum to the range maximum, and it is monotonically
non-decreasing over the nonnegative reals. -/
theorem updateScatterPlot_scale_spec (trips : List Trip) (st : PipelineState) (f : JSNum) :
    ((updateScatterPlot trips st f).scaleRangeMin = if f.isNegOne then 0 else 3) ∧
    ((updateScatterPlot trips st f).scaleRangeMax = if f.isNegOne then 25 else 50) ∧
    (updateScatterPlot trips st f).scaleDomainMax = st.scaleDomainMax ∧
    ((updateScatterPlot trips st f).scaleDomainMax ≠ 0 →
      applyRadiusScale (updateScatterPlot trips st f) 0
        = ((updateScatterPlot trips st f).scaleRangeMin : ℝ) ∧
      applyRadiusScale (updateScatterPlot trips st f)
          ((updateScatterPlot trips st f).scaleDomainMax : ℝ)
        = ((updateScatterPlot trips st f).scaleRangeMax : ℝ)) ∧
    (∀ x y : ℝ, 0 ≤ x → x ≤ y →
      applyRadiusScale (updateScatterPlot trips st f) x
        ≤ applyRadiusScale (updateScatterPlot trips st f) y) := by
  have hmin : (updateScatterPlot trips st f).scaleRangeMin = if f.isNegOne then 0 else 3 := rfl
  have hmax : (updateScatterPlot trips st f).scaleRangeMax = if f.isNegOne then 25 else 50 := rfl
  have hdom : (updateScatterPlot trips st f).scaleDomainMax = st.scaleDomainMax := rfl
  have hr : ((updateScatterPlot trips st f).scaleRangeMin : ℝ)
      ≤ ((updateScatterPlot trips st f).scaleRangeMax : ℝ) := by
    rw [hmin, hmax]
    by_cases hb : f.isNegOne <;> simp [hb] <;> norm_num
  refine ⟨hmin, hmax, hdom, fun h0 => ?_, fun x y hx hxy => ?_⟩
  · have hpos : (0 : ℝ) < ((updateScatterPlot trips st f).scaleDomainMax : ℝ) := by
      exact_mod_cast Nat.pos_of_ne_zero h0
    exact ⟨scaleSqrt_at_zero _ _ _ hpos, scaleSqrt_at_top _ _ _ hpos⟩
  · exact scaleSqrt_mono _ _ _ x y (Nat.cast_nonneg _) hr hx hxy

theorem updateScatterPlot_scale_spec_witness :
    applyRadiusScale (updateScatterPlot [] pipelineW (JSNum.num 600)) 0
      = ((updateScatterPlot [] pipelineW (JSNum.num 600)).scaleRangeMin : ℝ) ∧
    applyRadiusScale (updateScatterPlot [] pipelineW (JSNum.num 600)) 1
      ≤ applyRadiusScale (updateScatterPlot [] pipelineW (JSNum.num 600)) 4 :=
  ⟨((updateScatterPlot_scale_spec [] pipelineW (JSNum.num 600)).2.2.2.1 (by decide)).1,
   (updateScatterPlot_scale_spec [] pipelineW (JSNum.num 600)).2.2.2.2 1 4
     (by norm_num) (by norm_num)⟩

/-- C8: the move/zoom/resize handler re-derives only the circle positions
from the projection adapter (and re-applies the unchanged radius scale to
the unchanged station data for `r`): the pipeline state — every station's
arrivals, departures and totalTraffic and the radius scale's domain and
range — and the station datum bound to each circle are left unchanged. -/
theorem updatePositions_frame (proj : ℚ → ℚ → ℚ × ℚ) (st : AppState) :
    (updatePositions proj st).pipeline = st.pipeline ∧
    (updatePositions proj st).circles.map CircleElem.station
      = st.circles.map CircleElem.station ∧
    (updatePositions proj st).circles.map (fun c => (c.cx, c.cy))
      = st.circles.map (fun c => proj c.station.lon c.station.lat) ∧
    (updatePositions proj st).circles.map CircleElem.r
      = st.circles.map fun c => applyRadiusScale st.pipeline (c.station.totalTraffic : ℝ) := by
  refine ⟨rfl, ?_, ?_, ?_⟩
  · simp only [updatePositions, List.map_map]
    rfl
  · simp only [updatePositions, List.map_map]
    rfl
  · simp only [updatePositions, List.map_map]
    rfl
